import Mathlib

/-!
Shallow embedding of `src/index.ts` of the tasks-app-backend-api-hono
repository: a Hono app over two Cloudflare KV namespaces (`TASKS`,
`COMMENTS`) with a custom rate limiter, zod validation, and CRUD
handlers for tasks and comments.

Modelling conventions:
* Machine time (`Date.now()` / KV TTL clock) is a `Nat` parameter `now`,
  one value per request.
* A KV namespace is an association list from keys to values paired with
  an optional absolute expiration instant (`expirationTtl` writes
  `now + ttl`; a key whose expiration has been reached reads as null).
* Stored values (`KVValue`) are the JSON texts the program actually
  writes: a full JSON-serialized task record, a partial task-shaped
  object (producible only by PUT on a key holding a non-object value),
  or a raw string (the rate-limit counters, written by `put(key,
  (count+1).toString())`).
* `undefined` / absent strings are `Option String`; the JS template
  literal rendering of `undefined` is the string "undefined".
-/

namespace TasksApp

/-- `links` block attached to task records (`index.ts` lines 81-84). -/
structure Links where
  self : String
  comments : String
deriving Repr, DecidableEq

/-- A task record as serialized into the TASKS namespace
(`index.ts` lines 73-85). -/
structure Task where
  id : String
  title : String
  status : String
  priority : String
  labels : List String
  createdAt : Nat
  updatedAt : Nat
  links : Links
deriving Repr, DecidableEq

/-- `links` block attached to comment records (`index.ts` lines 200-203). -/
structure CLinks where
  self : String
  task : String
deriving Repr, DecidableEq

/-- A comment record as serialized into the COMMENTS namespace
(`index.ts` lines 194-204). -/
structure Comment where
  id : String
  taskId : String
  content : String
  createdAt : Nat
  updatedAt : Nat
  links : CLinks
deriving Repr, DecidableEq

/-- A task-shaped JSON object in which any field may be missing.  Such
objects arise when the list handler spreads a JSON value that is not a
full task record (`index.ts` lines 104-118), and when PUT merges fields
onto a parsed non-object value. -/
structure ListedTask where
  idF : Option String
  titleF : Option String
  statusF : Option String
  priorityF : Option String
  labelsF : Option (List String)
  createdAtF : Option Nat
  updatedAtF : Option Nat
  links : Links
deriving Repr, DecidableEq

/-- The values the program writes into the TASKS namespace: JSON task
records (task handlers), partial task-shaped objects (PUT on a key whose
value parsed to a non-object), and raw counter strings (rate limiter). -/
inductive KVValue where
  | jsonTask (t : Task)
  | jsonObj (o : ListedTask)
  | rawString (s : String)
deriving Repr, DecidableEq

/-- A KV namespace: key, value, optional absolute expiration instant. -/
def Store : Type := List (String × KVValue × Option Nat)

instance : DecidableEq Store := by
  unfold Store
  infer_instance

/-- The COMMENTS namespace (only ever holds JSON comment records). -/
def CStore : Type := List (String × Comment)

instance : DecidableEq CStore := by
  unfold CStore
  infer_instance

def kvLookup : Store → String → Option (KVValue × Option Nat)
  | [], _ => none
  | (k, v, e) :: rest, key => if k = key then some (v, e) else kvLookup rest key

/-- A stored entry is readable at `now` unless its expiration instant
has been reached. -/
def entryLive (now : Nat) : Option Nat → Bool
  | none => true
  | some exp => decide (now < exp)

/-- `namespace.get(key)`: null for an absent or expired key. -/
def kvGet (st : Store) (key : String) (now : Nat) : Option KVValue :=
  match kvLookup st key with
  | some (v, e) => if entryLive now e then some v else none
  | none => none

/-- `namespace.put(key, value, {expirationTtl})`: upsert. -/
def kvPut (st : Store) (key : String) (v : KVValue) (e : Option Nat) : Store :=
  match st with
  | [] => [(key, v, e)]
  | (k, v0, e0) :: rest =>
      if k = key then (key, v, e) :: rest else (k, v0, e0) :: kvPut rest key v e

/-- `namespace.delete(key)`: removing an absent key is a no-op. -/
def kvDelete (st : Store) (key : String) : Store :=
  st.filter (fun ent => ent.1 ≠ key)

def cLookup : CStore → String → Option Comment
  | [], _ => none
  | (k, c) :: rest, key => if k = key then some c else cLookup rest key

def cPut (st : CStore) (key : String) (c : Comment) : CStore :=
  match st with
  | [] => [(key, c)]
  | (k, c0) :: rest =>
      if k = key then (key, c) :: rest else (k, c0) :: cPut rest key c

/-- Keys readable at `now`. -/
def liveKeys (st : Store) (now : Nat) : List String :=
  (st.filter (fun ent => entryLive now ent.2.2)).map (fun ent => ent.1)

/-- Lexicographic comparison of strings by code point. -/
def charsLe : List Char → List Char → Bool
  | [], _ => true
  | _ :: _, [] => false
  | c :: cs, d :: ds =>
      if c.toNat < d.toNat then true
      else if d.toNat < c.toNat then false
      else charsLe cs ds

def strLe (a b : String) : Bool := charsLe a.toList b.toList

def insertSorted (x : String) : List String → List String
  | [] => [x]
  | y :: ys => if strLe x y then x :: y :: ys else y :: insertSorted x ys

/-- Cloudflare KV lists keys in lexicographic order. -/
def sortKeys : List String → List String
  | [] => []
  | x :: xs => insertSorted x (sortKeys xs)

/-! ## Responses

The response bodies the routes in `index.ts` can produce. `text` is a
non-JSON plain-text body (in particular, Hono's default not-found
response `c.notFound()`, for which this app installs no custom handler:
status 404, body the bare string "404 Not Found"). -/

/-- One entry of a zod error's `issues` array (field path and violation
code); zod reports at most one code per scalar field here. -/
structure Issue where
  path : List String
  code : String
deriving Repr, DecidableEq

structure TaskListResponse where
  tasks : List ListedTask
  total : Nat
  page : Option Int
  limit : Option Int
  linkSelf : String
  linkNext : String
  linkPrev : Option String
deriving Repr, DecidableEq

inductive ResBody where
  | jsonTask (t : Task)
  | jsonComment (c : Comment)
  | jsonObj (o : ListedTask)
  | jsonTaskList (r : TaskListResponse)
  | jsonErr (error : String)
  | jsonValidation (issues : List Issue)
  | jsonMsg (message : String)
  | text (s : String)
deriving Repr, DecidableEq

structure Response where
  status : Nat
  body : ResBody
deriving Repr, DecidableEq

/-- Hono's default not-found response, produced by `c.notFound()`. -/
def notFoundResponse : Response := ⟨404, .text "404 Not Found"⟩

/-- Is the body a bare (non-JSON) string? -/
def isTextBody : ResBody → Bool
  | .text _ => true
  | _ => false

/-- Is the body a JSON object carrying an `error` string field (the
shape of this app's 401/429/500 bodies and of validation failures)? -/
def isJsonErrorObject : ResBody → Bool
  | .jsonErr _ => true
  | .jsonValidation _ => true
  | _ => false

/-! ## JS helpers -/

/-- JS `parseInt` restricted to the strings this program can read back:
an optional sign followed by leading decimal digits; `none` is `NaN`. -/
def jsParseInt (s : String) : Option Int :=
  let chars := s.toList
  let (sign, digits) :=
    match chars with
    | '-' :: rest => ((-1 : Int), rest)
    | '+' :: rest => ((1 : Int), rest)
    | _ => ((1 : Int), chars)
  let ds := digits.takeWhile (fun c => c.isDigit)
  if ds = [] then none
  else some (sign * (ds.foldl (fun acc c => acc * 10 + (c.toNat - 48)) 0 : Nat))

/-- Rendering of an `Option String` inside a JS template literal:
`undefined` prints as the string "undefined". -/
def jsShow : Option String → String
  | some s => s
  | none => "undefined"

/-- JS truthiness of a string-or-undefined value. -/
def truthy : Option String → Bool
  | none => false
  | some s => decide (s ≠ "")

/-! ## Rate limiter (`index.ts` lines 38-52)

The middleware reads `rate_limit:${ip}` from the TASKS namespace,
rejects with 429 when the parsed counter is ≥ 100, and otherwise writes
the incremented counter back with `expirationTtl: 60` and calls the
downstream handler. -/

/-- `rate_limit:${ip}` with `ip = c.req.header('CF-Connecting-IP')`. -/
def rateLimitKey (ip : Option String) : String :=
  "rate_limit:" ++ jsShow ip

/-- The value of `count` after `count = count ? parseInt(count) : 0`:
null and the empty string give 0; a serialized JSON object begins with
a brace, so `parseInt` yields NaN (`none`). -/
def counterOf : Option KVValue → Option Int
  | none => some 0
  | some (.rawString s) => if s = "" then some 0 else jsParseInt s
  | some (.jsonTask _) => none
  | some (.jsonObj _) => none

/-- The test `count >= limit` with limit 100 (false for NaN). -/
def rlTooMany (st : Store) (ip : Option String) (now : Nat) : Bool :=
  match counterOf (kvGet st (rateLimitKey ip) now) with
  | some n => decide (100 ≤ n)
  | none => false

/-- `(count + 1).toString()` (NaN + 1 is NaN). -/
def rlNewVal (st : Store) (ip : Option String) (now : Nat) : String :=
  match counterOf (kvGet st (rateLimitKey ip) now) with
  | some n => toString (n + 1)
  | none => "NaN"

/-- The store after the rate limiter accepts a request: counter
incremented under `rate_limit:${ip}` with a fresh 60-second TTL. -/
def rlAcceptStore (st : Store) (ip : Option String) (now : Nat) : Store :=
  kvPut st (rateLimitKey ip) (.rawString (rlNewVal st ip now)) (some (now + 60))

/-- The rate limiter composed with a downstream handler `h` (the rest
of the middleware chain and the route handler, as a transformer of the
TASKS namespace).  On rejection the handler is never invoked and the
store is returned untouched. -/
def withRateLimit (h : Store → Response × Store) (ip : Option String)
    (now : Nat) (st : Store) : Response × Store :=
  if rlTooMany st ip now then (⟨429, .jsonErr "Too many requests"⟩, st)
  else h (rlAcceptStore st ip now)

/-! ## Validation layer (`index.ts` lines 58-67)

`taskSchema` is a `z.object` (strip mode: unknown keys such as `id`,
`createdAt`, `updatedAt` are removed from the parsed output);
`taskSchema.partial()` makes every field optional without applying the
defaults; `zValidator('json', schema)` runs before the handler and
answers 400 with the zod issues when parsing fails. -/

/-- A request body for the task routes: the schema fields plus the
extra keys a client may try to smuggle in (`z.object` strips them). -/
structure RawBody where
  title : Option String
  status : Option String
  priority : Option String
  labels : Option (List String)
  id : Option String
  createdAt : Option Nat
  updatedAt : Option Nat
deriving Repr, DecidableEq

/-- Output of `taskSchema.parse`: defaults applied, extra keys gone. -/
structure ValidTask where
  title : String
  status : String
  priority : String
  labels : List String
deriving Repr, DecidableEq

/-- Output of `taskSchema.partial().parse`: absent fields stay absent
(the defaults are not applied through `.partial()`), extra keys gone. -/
structure PartialBody where
  title : Option String
  status : Option String
  priority : Option String
  labels : Option (List String)
deriving Repr, DecidableEq

def statusValues : List String := ["todo", "in-progress", "done"]

def priorityValues : List String := ["low", "medium", "high"]

/-- `z.string().min(1).max(100)` for the `title` field. -/
def checkTitle : Option String → Except Issue String
  | none => .error ⟨["title"], "invalid_type"⟩
  | some t =>
      if t.length < 1 then .error ⟨["title"], "too_small"⟩
      else if 100 < t.length then .error ⟨["title"], "too_big"⟩
      else .ok t

/-- `z.enum(vals).default(dflt)` for a named field. -/
def checkEnum (field : String) (vals : List String) (dflt : String) :
    Option String → Except Issue String
  | none => .ok dflt
  | some s => if vals.contains s then .ok s else .error ⟨[field], "invalid_enum_value"⟩

/-- An optional field of the partial schema: validated only if present. -/
def checkOpt {α : Type} (chk : Option String → Except Issue α) :
    Option String → Except Issue (Option α)
  | none => .ok none
  | some s => (chk (some s)).map some

def errsOf {α : Type} : Except Issue α → List Issue
  | .ok _ => []
  | .error i => [i]

/-- `taskSchema.parse`: zod collects the issues of all failing fields. -/
def validateTask (b : RawBody) : Except (List Issue) ValidTask :=
  match checkTitle b.title, checkEnum "status" statusValues "todo" b.status,
        checkEnum "priority" priorityValues "medium" b.priority with
  | .ok t, .ok s, .ok p => .ok ⟨t, s, p, b.labels.getD []⟩
  | et, es, ep => .error (errsOf et ++ errsOf es ++ errsOf ep)

/-- `taskSchema.partial().parse`: strips `id`/`createdAt`/`updatedAt`,
validates each schema field only when present. -/
def validatePartialTask (b : RawBody) : Except (List Issue) PartialBody :=
  match checkOpt checkTitle b.title,
        checkOpt (checkEnum "status" statusValues "todo") b.status,
        checkOpt (checkEnum "priority" priorityValues "medium") b.priority with
  | .ok t, .ok s, .ok p => .ok ⟨t, s, p, b.labels⟩
  | et, es, ep => .error (errsOf et ++ errsOf es ++ errsOf ep)

/-- `commentSchema`: `content: z.string().min(1).max(500)`. -/
def checkContent : Option String → Except Issue String
  | none => .error ⟨["content"], "invalid_type"⟩
  | some s =>
      if s.length < 1 then .error ⟨["content"], "too_small"⟩
      else if 500 < s.length then .error ⟨["content"], "too_big"⟩
      else .ok s

def validateComment (content : Option String) : Except (List Issue) String :=
  match checkContent content with
  | .ok s => .ok s
  | .error i => .error [i]

/-! ## More JS helpers -/

/-- A full string that is a valid JSON integer (the only raw strings
the program writes are decimal counters, or "NaN" which is not JSON). -/
def jsonNumber (s : String) : Option Int :=
  let (sign, digits) :=
    match s.toList with
    | '-' :: rest => ((-1 : Int), rest)
    | rest => ((1 : Int), rest)
  if digits = [] then none
  else if digits.all (fun c => c.isDigit) then
    some (sign * (digits.foldl (fun acc c => acc * 10 + (c.toNat - 48)) 0 : Nat))
  else none

/-- Spreading a parsed non-object JSON value into an object literal
contributes no fields. -/
def spreadNone (l : Links) : ListedTask :=
  ⟨none, none, none, none, none, none, none, l⟩

/-- The override semantics of a second object spread:
`{...existing, ...updated}` keeps `updated`'s value when present. -/
def jsOverride {α : Type} : Option α → Option α → Option α
  | some x, _ => some x
  | none, y => y

def replaceFirstAux (p r : List Char) : List Char → List Char
  | [] => []
  | c :: cs =>
      if List.isPrefixOf p (c :: cs) then r ++ (c :: cs).drop p.length
      else c :: replaceFirstAux p r cs

/-- JS `String.prototype.replace` with a string pattern: replaces the
first occurrence only (pattern assumed non-empty, as in the source). -/
def replaceFirst (s pat rep : String) : String :=
  ⟨replaceFirstAux pat.toList rep.toList s.toList⟩

/-! ## Task routes -/

/-- `POST /api/v1/tasks` (`index.ts` lines 70-90): validate, generate
id, set `createdAt = updatedAt = now`, persist, answer 201.  (The put's
unused `metadata` option is omitted.) -/
def postTask (st : Store) (b : RawBody) (taskId : String) (now : Nat)
    (url : String) : Response × Store :=
  match validateTask b with
  | .error issues => (⟨400, .jsonValidation issues⟩, st)
  | .ok v =>
      let task : Task :=
        { id := taskId, title := v.title, status := v.status, priority := v.priority,
          labels := v.labels, createdAt := now, updatedAt := now,
          links := ⟨url ++ "/" ++ taskId, url ++ "/" ++ taskId ++ "/comments"⟩ }
      (⟨201, .jsonTask task⟩, kvPut st taskId (.jsonTask task) none)

/-- `GET /api/v1/tasks/:id` (`index.ts` lines 142-157): absent key →
`c.notFound()`; else `JSON.parse` the stored text, recompute links.  A
stored raw string parses to a number (spread contributes no fields) or,
when not valid JSON, throws into `app.onError` → 500. -/
def getTask (st : Store) (taskId : String) (now : Nat) (url : String) : Response :=
  match kvGet st taskId now with
  | none => notFoundResponse
  | some (.jsonTask t) => ⟨200, .jsonTask { t with links := ⟨url, url ++ "/comments"⟩ }⟩
  | some (.jsonObj o) => ⟨200, .jsonObj { o with links := ⟨url, url ++ "/comments"⟩ }⟩
  | some (.rawString s) =>
      match jsonNumber s with
      | some _ => ⟨200, .jsonObj (spreadNone ⟨url, url ++ "/comments"⟩)⟩
      | none => ⟨500, .jsonErr "Internal Server Error"⟩

/-- The merge of `PUT` (`index.ts` lines 166-174) on a full task
record: `{...existing, ...updatedFields, updatedAt: now, links}`. -/
def mergeTask (t : Task) (p : PartialBody) (now : Nat) (url : String) : Task :=
  { id := t.id, title := p.title.getD t.title, status := p.status.getD t.status,
    priority := p.priority.getD t.priority, labels := p.labels.getD t.labels,
    createdAt := t.createdAt, updatedAt := now,
    links := ⟨url, url ++ "/comments"⟩ }

/-- The same merge on a partial task-shaped object. -/
def mergeObj (o : ListedTask) (p : PartialBody) (now : Nat) (url : String) : ListedTask :=
  { idF := o.idF, titleF := jsOverride p.title o.titleF,
    statusF := jsOverride p.status o.statusF,
    priorityF := jsOverride p.priority o.priorityF,
    labelsF := jsOverride p.labels o.labelsF,
    createdAtF := o.createdAtF, updatedAtF := some now,
    links := ⟨url, url ++ "/comments"⟩ }

/-- `PUT /api/v1/tasks/:id` (`index.ts` lines 159-177): body validated
by `zValidator` before the handler; absent key → `c.notFound()`; else
merge and persist the full merged record under the same id. -/
def putTask (st : Store) (taskId : String) (b : RawBody) (now : Nat)
    (url : String) : Response × Store :=
  match validatePartialTask b with
  | .error issues => (⟨400, .jsonValidation issues⟩, st)
  | .ok p =>
      match kvGet st taskId now with
      | none => (notFoundResponse, st)
      | some (.jsonTask t) =>
          let m := mergeTask t p now url
          (⟨200, .jsonTask m⟩, kvPut st taskId (.jsonTask m) none)
      | some (.jsonObj o) =>
          let m := mergeObj o p now url
          (⟨200, .jsonObj m⟩, kvPut st taskId (.jsonObj m) none)
      | some (.rawString s) =>
          match jsonNumber s with
          | some _ =>
              let m := mergeObj (spreadNone ⟨url, url ++ "/comments"⟩) p now url
              (⟨200, .jsonObj m⟩, kvPut st taskId (.jsonObj m) none)
          | none => (⟨500, .jsonErr "Internal Server Error"⟩, st)

/-- `DELETE /api/v1/tasks/:id` (`index.ts` lines 179-183):
unconditional delete, unconditional 200 confirmation. -/
def deleteTask (st : Store) (taskId : String) : Response × Store :=
  (⟨200, .jsonMsg "Task deleted successfully"⟩, kvDelete st taskId)

/-! ## Comment creation (`index.ts` lines 186-207) -/

/-- The truthiness test `if (!task)` on the raw string returned by
`TASKS.get`: null and the empty string are falsy. -/
def taskTruthy : Option KVValue → Bool
  | none => false
  | some (.rawString s) => decide (s ≠ "")
  | some _ => true

/-- `POST /api/v1/tasks/:id/comments`: validate body, fetch the parent
task first (404 when absent), then store the new comment under the
composite key `{taskId}:{commentId}`. -/
def postComment (tasks : Store) (comments : CStore) (taskId : String)
    (content : Option String) (commentId : String) (now : Nat) (url : String) :
    Response × CStore :=
  match validateComment content with
  | .error issues => (⟨400, .jsonValidation issues⟩, comments)
  | .ok ct =>
      if taskTruthy (kvGet tasks taskId now) then
        let cm : Comment :=
          { id := commentId, taskId := taskId, content := ct,
            createdAt := now, updatedAt := now,
            links := ⟨url ++ "/" ++ commentId, replaceFirst url "/comments" ""⟩ }
        (⟨201, .jsonComment cm⟩, cPut comments (taskId ++ ":" ++ commentId) cm)
      else (notFoundResponse, comments)

/-! ## Task listing (`index.ts` lines 92-140) -/

/-- `const { page = '1', limit = '10' } = c.req.query()`: the
destructuring default applies only when the parameter is absent. -/
def queryDefault (v : Option String) (dflt : String) : String :=
  match v with
  | some s => s
  | none => dflt

/-- The page of keys fetched by `TASKS.list({limit, cursor})`.  The
cursor is `offset.toString()` when `offset = (page-1)*limit > 0`; per
the store contract the adapter translates it to an offset into the
lexicographically ordered key space (a NaN offset compares false and
yields no cursor). -/
def fetchedKeys (st : Store) (now : Nat) (pageNumber limitNumber : Option Int) :
    List String :=
  let lim : Nat := match limitNumber with | some l => l.toNat | none => 0
  let off : Nat :=
    match pageNumber, limitNumber with
    | some p, some l => ((p - 1) * l).toNat
    | _, _ => 0
  ((sortKeys (liveKeys st now)).drop off).take lim

/-- The spread-plus-links shaping of one fetched value
(`index.ts` lines 102-119): a full task record contributes all fields;
a parsed non-object contributes none, and its missing `id` renders as
"undefined" in the link templates. -/
def decodeListed (path : String) : KVValue → ListedTask
  | .jsonTask t =>
      ⟨some t.id, some t.title, some t.status, some t.priority, some t.labels,
        some t.createdAt, some t.updatedAt,
        ⟨path ++ "/" ++ t.id, path ++ "/" ++ t.id ++ "/comments"⟩⟩
  | .jsonObj o =>
      { o with links := ⟨path ++ "/" ++ jsShow o.idF,
                          path ++ "/" ++ jsShow o.idF ++ "/comments"⟩ }
  | .rawString _ => spreadNone ⟨path ++ "/undefined", path ++ "/undefined/comments"⟩

/-- Fetch and decode every key of the page; `none` when any per-key
step throws (a vanished key or a non-JSON raw value), which the
outermost error boundary turns into a 500. -/
def decodeFetched (st : Store) (now : Nat) (path : String)
    (keys : List String) : Option (List ListedTask) :=
  keys.mapM (fun k =>
    match kvGet st k now with
    | some (.rawString s) =>
        if (jsonNumber s).isSome then some (decodeListed path (.rawString s)) else none
    | some v => some (decodeListed path v)
    | none => none)

/-- The in-memory filter (`index.ts` lines 121-125): a truthy `status`
query drops records whose `status` differs, likewise `priority`. -/
def keepTask (status priority : Option String) (t : ListedTask) : Bool :=
  !(truthy status && decide (t.statusF ≠ status)) &&
  !(truthy priority && decide (t.priorityF ≠ priority))

def showJsInt : Option Int → String
  | some n => toString n
  | none => "NaN"

def jsAddOne : Option Int → Option Int
  | some n => some (n + 1)
  | none => none

def jsSubOne : Option Int → Option Int
  | some n => some (n - 1)
  | none => none

def jsGtOne : Option Int → Bool
  | some n => decide (1 < n)
  | none => false

/-- `GET /api/v1/tasks`: parse paging params, fetch a page of keys,
decode, filter in memory, and shape the response; `metadata.total` is
the length of the filtered list. -/
def listTasks (st : Store) (now : Nat) (pageQ limitQ status priority : Option String)
    (url path : String) : Response :=
  let pageNumber := jsParseInt (queryDefault pageQ "1")
  let limitNumber := jsParseInt (queryDefault limitQ "10")
  let keys := fetchedKeys st now pageNumber limitNumber
  match decodeFetched st now path keys with
  | none => ⟨500, .jsonErr "Internal Server Error"⟩
  | some decoded =>
      let filteredTasks := decoded.filter (keepTask status priority)
      ⟨200, .jsonTaskList
        { tasks := filteredTasks,
          total := filteredTasks.length,
          page := pageNumber,
          limit := limitNumber,
          linkSelf := url,
          linkNext := url ++ "?page=" ++ showJsInt (jsAddOne pageNumber) ++
            "&limit=" ++ showJsInt limitNumber,
          linkPrev :=
            if jsGtOne pageNumber then
              some (url ++ "?page=" ++ showJsInt (jsSubOne pageNumber) ++
                "&limit=" ++ showJsInt limitNumber)
            else none }⟩

/-- Bool form of the invariant "every key of the TASKS namespace holds
a JSON task record". -/
def allTaskValues (st : Store) : Bool :=
  st.all (fun ent =>
    match ent.2.1 with
    | .jsonTask _ => true
    | _ => false)

/-! ## Helper lemmas -/

theorem kvLookup_kvPut_self (st : Store) (k : String) (v : KVValue) (e : Option Nat) :
    kvLookup (kvPut st k v e) k = some (v, e) := by
  induction st with
  | nil => simp [kvPut, kvLookup]
  | cons ent rest ih =>
      obtain ⟨k0, v0, e0⟩ := ent
      by_cases hk : k0 = k
      · simp [kvPut, hk, kvLookup]
      · simp [kvPut, hk, kvLookup, ih]

theorem allTaskValues_kvPut_raw (st : Store) (k s : String) (e : Option Nat) :
    allTaskValues (kvPut st k (.rawString s) e) = false := by
  induction st with
  | nil => simp [kvPut, allTaskValues]
  | cons ent rest ih =>
      obtain ⟨k0, v0, e0⟩ := ent
      by_cases hk : k0 = k
      · simp [kvPut, hk, allTaskValues]
      · simp only [kvPut, hk, if_false, allTaskValues, List.all_cons]
        simp only [allTaskValues] at ih
        simp [ih]

theorem checkOpt_id_ok (chk : Option String → Except Issue String)
    (hchk : ∀ s v, chk (some s) = .ok v → v = s)
    (x y : Option String) (h : checkOpt chk x = .ok y) : y = x := by
  cases x with
  | none =>
      simp only [checkOpt] at h
      exact (Except.ok.injEq _ _ ▸ h).symm ▸ rfl
  | some s =>
      simp only [checkOpt] at h
      cases hc : chk (some s) with
      | error e => rw [hc] at h; simp [Except.map] at h
      | ok v =>
          rw [hc] at h
          simp only [Except.map, Except.ok.injEq] at h
          rw [← h, hchk s v hc]

theorem checkTitle_some_ok (s v : String) (h : checkTitle (some s) = .ok v) : v = s := by
  simp only [checkTitle] at h
  split_ifs at h with h1 h2
  exact (Except.ok.injEq _ _ ▸ h).symm

theorem checkEnum_some_ok (field : String) (vals : List String) (dflt s v : String)
    (h : checkEnum field vals dflt (some s) = .ok v) : v = s := by
  simp only [checkEnum] at h
  split_ifs at h with h1
  exact (Except.ok.injEq _ _ ▸ h).symm

/-- On success, `taskSchema.partial().parse` returns exactly the body's
schema fields (and nothing else: `id`, `createdAt`, `updatedAt` are
stripped by `z.object`). -/
theorem validatePartialTask_ok_eq (b : RawBody) (p : PartialBody)
    (hv : validatePartialTask b = .ok p) :
    p.title = b.title ∧ p.status = b.status ∧ p.priority = b.priority ∧
    p.labels = b.labels := by
  unfold validatePartialTask at hv
  cases h1 : checkOpt checkTitle b.title with
  | error e => rw [h1] at hv; simp at hv
  | ok y1 =>
      cases h2 : checkOpt (checkEnum "status" statusValues "todo") b.status with
      | error e => rw [h1, h2] at hv; simp at hv
      | ok y2 =>
          cases h3 : checkOpt (checkEnum "priority" priorityValues "medium") b.priority with
          | error e => rw [h1, h2, h3] at hv; simp at hv
          | ok y3 =>
              rw [h1, h2, h3] at hv
              simp only [Except.ok.injEq] at hv
              rw [← hv]
              exact ⟨checkOpt_id_ok checkTitle checkTitle_some_ok _ _ h1,
                checkOpt_id_ok _ (checkEnum_some_ok "status" statusValues "todo") _ _ h2,
                checkOpt_id_ok _ (checkEnum_some_ok "priority" priorityValues "medium") _ _ h3,
                rfl⟩

/-! ## Claim theorems -/

/-- C8: `DELETE /api/v1/tasks/:id` answers 200 with a confirmation
message for every id and store, including a nonexistent id, and it is
idempotent: a second delete of the same id answers the same success and
leaves the store exactly as the first delete did. -/
theorem deleteTask_idempotent (st : Store) (taskId : String) :
    (deleteTask st taskId).1 = ⟨200, .jsonMsg "Task deleted successfully"⟩ ∧
    (deleteTask (deleteTask st taskId).2 taskId).1 =
      ⟨200, .jsonMsg "Task deleted successfully"⟩ ∧
    (deleteTask (deleteTask st taskId).2 taskId).2 = (deleteTask st taskId).2 := by
  refine ⟨rfl, rfl, ?_⟩
  simp [deleteTask, kvDelete, List.filter_filter]

/-- C4 (failing evaluation): `GET /api/v1/tasks/:id` on a nonexistent
id goes through `c.notFound()`, for which no custom handler is
installed, so the response is status 404 with the bare plain-text body
"404 Not Found" — not a JSON object with an `error` field as the spec
and the repository's own documentation state. -/
theorem getTask_missing_is_bare_text :
    getTask ([] : Store) "missing" 0 "http://x/api/v1/tasks/missing" =
      ⟨404, .text "404 Not Found"⟩ ∧
    isTextBody (getTask ([] : Store) "missing" 0 "http://x/api/v1/tasks/missing").body = true ∧
    isJsonErrorObject
      (getTask ([] : Store) "missing" 0 "http://x/api/v1/tasks/missing").body = false := by
  exact ⟨rfl, rfl, rfl⟩

/-- C10: a request whose `CF-Connecting-IP` header is absent is never
failed with an internal error by the rate limiter: the JS template
literal renders the missing header as "undefined", so all such requests
share the single bucket `rate_limit:undefined` and are processed
exactly like requests from the one IP string "undefined" — each is
either accepted (counter incremented, handler invoked) or rejected
with 429. -/
theorem rateLimiter_missingIp (st : Store) (now : Nat)
    (h : Store → Response × Store) :
    rateLimitKey none = "rate_limit:undefined" ∧
    withRateLimit h none now st = withRateLimit h (some "undefined") now st ∧
    (withRateLimit h none now st = (⟨429, .jsonErr "Too many requests"⟩, st) ∨
     withRateLimit h none now st = h (rlAcceptStore st none now)) := by
  refine ⟨rfl, rfl, ?_⟩
  unfold withRateLimit
  cases hb : rlTooMany st none now with
  | true => simp
  | false => simp

/-- C2: while the stored per-IP counter is live and reads at least 100,
every request from that IP is rejected with 429, the counter is not
incremented (the store is returned untouched) and the downstream
handler is never invoked (the result does not depend on `h`); and once
the counter entry's 60-second expiration has elapsed — rejections never
refresh it — a request from the same IP is accepted again, reaching the
handler with the counter restarted at "1". -/
theorem rateLimiter_reject_then_recover (st : Store) (ip : Option String)
    (now now2 : Nat) (h : Store → Response × Store)
    (cnt : String) (n : Int) (exp : Nat)
    (hlook : kvLookup st (rateLimitKey ip) = some (.rawString cnt, some exp))
    (hlive : now < exp)
    (hparse : jsParseInt cnt = some n)
    (hn : 100 ≤ n)
    (hexp : exp ≤ now2) :
    withRateLimit h ip now st = (⟨429, .jsonErr "Too many requests"⟩, st) ∧
    withRateLimit h ip now2 st =
      h (kvPut st (rateLimitKey ip) (.rawString "1") (some (now2 + 60))) := by
  have hget : kvGet st (rateLimitKey ip) now = some (.rawString cnt) := by
    simp [kvGet, hlook, entryLive, hlive]
  have hcne : cnt ≠ "" := by
    intro hc
    rw [hc] at hparse
    have hnone : jsParseInt "" = none := rfl
    rw [hnone] at hparse
    exact Option.noConfusion hparse
  have htm : rlTooMany st ip now = true := by
    simp [rlTooMany, hget, counterOf, hcne, hparse, hn]
  have hget2 : kvGet st (rateLimitKey ip) now2 = none := by
    simp [kvGet, hlook, entryLive, Nat.not_lt.mpr hexp]
  have htm2 : rlTooMany st ip now2 = false := by
    simp [rlTooMany, hget2, counterOf]
  have hnv : rlNewVal st ip now2 = "1" := by
    simp only [rlNewVal, hget2, counterOf]
    rfl
  constructor
  · simp [withRateLimit, htm]
  · simp [withRateLimit, htm2, rlAcceptStore, hnv]

/-- Witness for C2 at a concrete state: counter "100" for IP 1.2.3.4
live until instant 60; a request at 10 is rejected and leaves the store
alone, and a request at 60 (window elapsed) is accepted. -/
theorem rateLimiter_reject_then_recover_witness :
    withRateLimit (fun s => (⟨200, .jsonMsg "ok"⟩, s)) (some "1.2.3.4") 10
        [("rate_limit:1.2.3.4", .rawString "100", some 60)] =
      (⟨429, .jsonErr "Too many requests"⟩,
        [("rate_limit:1.2.3.4", .rawString "100", some 60)]) ∧
    withRateLimit (fun s => (⟨200, .jsonMsg "ok"⟩, s)) (some "1.2.3.4") 60
        [("rate_limit:1.2.3.4", .rawString "100", some 60)] =
      (⟨200, .jsonMsg "ok"⟩,
        kvPut [("rate_limit:1.2.3.4", .rawString "100", some 60)]
          (rateLimitKey (some "1.2.3.4")) (.rawString "1") (some (60 + 60))) :=
  rateLimiter_reject_then_recover
    [("rate_limit:1.2.3.4", .rawString "100", some 60)] (some "1.2.3.4")
    10 60 (fun s => (⟨200, .jsonMsg "ok"⟩, s)) "100" 100 60
    (by decide) (by decide) (by decide) (by decide) (by decide)

/-- C9: the rate limiter keeps its counters in the same namespace as
the task records: an accepted request stores the raw counter string
under `rate_limit:{ip}` in the TASKS store handed to the downstream
handlers, so the invariant "every key of the task store holds a JSON
task record" fails while a counter is live; concretely, the key scan of
`GET /api/v1/tasks` performed on the store left by one accepted
header-less request lists the counter key `rate_limit:undefined`. -/
theorem rateLimiter_counter_in_taskStore (st : Store) (ip : Option String)
    (now : Nat) (h : Store → Response × Store)
    (hacc : rlTooMany st ip now = false) :
    withRateLimit h ip now st = h (rlAcceptStore st ip now) ∧
    kvLookup (rlAcceptStore st ip now) (rateLimitKey ip) =
      some (.rawString (rlNewVal st ip now), some (now + 60)) ∧
    allTaskValues (rlAcceptStore st ip now) = false ∧
    "rate_limit:undefined" ∈ fetchedKeys (rlAcceptStore [] none 0) 0 (some 1) (some 10) := by
  refine ⟨by simp [withRateLimit, hacc], ?_, ?_, by decide⟩
  · exact kvLookup_kvPut_self st (rateLimitKey ip) _ _
  · exact allTaskValues_kvPut_raw st (rateLimitKey ip) _ _

/-- Witness for C9: one accepted request on the empty store from a
request with no client-IP header. -/
theorem rateLimiter_counter_in_taskStore_witness :
    withRateLimit (fun s => (⟨200, .jsonMsg "ok"⟩, s)) none 0 [] =
      (fun s => (⟨200, .jsonMsg "ok"⟩, s)) (rlAcceptStore [] none 0) ∧
    kvLookup (rlAcceptStore [] none 0) (rateLimitKey none) =
      some (.rawString (rlNewVal [] none 0), some (0 + 60)) ∧
    allTaskValues (rlAcceptStore [] none 0) = false ∧
    "rate_limit:undefined" ∈ fetchedKeys (rlAcceptStore [] none 0) 0 (some 1) (some 10) :=
  rateLimiter_counter_in_taskStore [] none 0 (fun s => (⟨200, .jsonMsg "ok"⟩, s)) (by decide)

/-- C6: `POST /api/v1/tasks` with a body holding only a valid `title`
answers 201 with a record whose `status` is "todo", `priority` is
"medium", `labels` is `[]`, and whose `createdAt` equals `updatedAt`;
the same record is persisted under the generated id. -/
theorem postTask_titleOnly_defaults (st : Store) (title taskId : String)
    (now : Nat) (url : String)
    (h1 : 0 < title.length) (h2 : title.length ≤ 100) :
    ∃ tk : Task,
      postTask st ⟨some title, none, none, none, none, none, none⟩ taskId now url =
        (⟨201, .jsonTask tk⟩, kvPut st taskId (.jsonTask tk) none) ∧
      tk.status = "todo" ∧ tk.priority = "medium" ∧ tk.labels = [] ∧
      tk.createdAt = tk.updatedAt := by
  refine ⟨⟨taskId, title, "todo", "medium", [], now, now,
    ⟨url ++ "/" ++ taskId, url ++ "/" ++ taskId ++ "/comments"⟩⟩, ?_, rfl, rfl, rfl, rfl⟩
  have hv : validateTask ⟨some title, none, none, none, none, none, none⟩ =
      .ok ⟨title, "todo", "medium", []⟩ := by
    simp only [validateTask, checkTitle, checkEnum]
    rw [if_neg (by omega), if_neg (by omega)]
    rfl
  simp [postTask, hv]

/-- Witness for C6: the concrete body `{"title": "Buy milk"}`. -/
theorem postTask_titleOnly_defaults_witness :
    ∃ tk : Task,
      postTask [] ⟨some "Buy milk", none, none, none, none, none, none⟩ "id1" 7 "u" =
        (⟨201, .jsonTask tk⟩, kvPut [] "id1" (.jsonTask tk) none) ∧
      tk.status = "todo" ∧ tk.priority = "medium" ∧ tk.labels = [] ∧
      tk.createdAt = tk.updatedAt :=
  postTask_titleOnly_defaults [] "Buy milk" "id1" 7 "u" (by decide) (by decide)

/-- C7: `POST /api/v1/tasks` with `title: ""` is rejected by the
validator before the handler body runs: status 400, an `issues` entry
with path `["title"]`, the store untouched, and a response independent
of the store contents (no store I/O is involved). -/
theorem postTask_emptyTitle_400 (st st2 : Store) (b : RawBody) (taskId : String)
    (now : Nat) (url : String) (hb : b.title = some "") :
    (postTask st b taskId now url).1.status = 400 ∧
    (∃ issues, (postTask st b taskId now url).1.body = .jsonValidation issues ∧
      ∃ i, i ∈ issues ∧ i.path = ["title"]) ∧
    (postTask st b taskId now url).2 = st ∧
    (postTask st2 b taskId now url).1 = (postTask st b taskId now url).1 := by
  have ht : checkTitle b.title = .error ⟨["title"], "too_small"⟩ := by
    rw [hb]; rfl
  have hv : validateTask b = .error (⟨["title"], "too_small"⟩ ::
      (errsOf (checkEnum "status" statusValues "todo" b.status) ++
       errsOf (checkEnum "priority" priorityValues "medium" b.priority))) := by
    unfold validateTask
    rw [ht]
    rfl
  refine ⟨?_, ?_, ?_, ?_⟩
  · simp [postTask, hv]
  · exact ⟨⟨["title"], "too_small"⟩ ::
      (errsOf (checkEnum "status" statusValues "todo" b.status) ++
       errsOf (checkEnum "priority" priorityValues "medium" b.priority)),
      by simp [postTask, hv], ⟨["title"], "too_small"⟩, by simp, rfl⟩
  · simp [postTask, hv]
  · simp [postTask, hv]

/-- Witness for C7: the concrete body `{"title": ""}` against two
different stores. -/
theorem postTask_emptyTitle_400_witness :
    (postTask [] ⟨some "", none, none, none, none, none, none⟩ "id1" 7 "u").1.status = 400 ∧
    (∃ issues,
      (postTask [] ⟨some "", none, none, none, none, none, none⟩ "id1" 7 "u").1.body =
        .jsonValidation issues ∧
      ∃ i, i ∈ issues ∧ i.path = ["title"]) ∧
    (postTask [] ⟨some "", none, none, none, none, none, none⟩ "id1" 7 "u").2 = [] ∧
    (postTask [("k", .rawString "1", none)]
        ⟨some "", none, none, none, none, none, none⟩ "id1" 7 "u").1 =
      (postTask [] ⟨some "", none, none, none, none, none, none⟩ "id1" 7 "u").1 :=
  postTask_emptyTitle_400 [] [("k", .rawString "1", none)]
    ⟨some "", none, none, none, none, none, none⟩ "id1" 7 "u" rfl

/-- C5: `POST /api/v1/tasks/:id/comments` with a valid body whose
parent task id is absent from the task store answers 404 and writes
nothing to the comment store. -/
theorem postComment_missingParent (tasks : Store) (comments : CStore)
    (taskId ct commentId : String) (now : Nat) (url : String)
    (h1 : 0 < ct.length) (h2 : ct.length ≤ 500)
    (hgone : kvGet tasks taskId now = none) :
    (postComment tasks comments taskId (some ct) commentId now url).1.status = 404 ∧
    (postComment tasks comments taskId (some ct) commentId now url).1 =
      notFoundResponse ∧
    (postComment tasks comments taskId (some ct) commentId now url).2 = comments := by
  have hcc : checkContent (some ct) = .ok ct := by
    simp only [checkContent]
    rw [if_neg (by omega), if_neg (by omega)]
  have hvc : validateComment (some ct) = .ok ct := by
    unfold validateComment
    rw [hcc]
  refine ⟨?_, ?_, ?_⟩ <;>
    simp [postComment, hvc, hgone, taskTruthy, notFoundResponse]

/-- Witness for C5: a valid comment body against an empty task store. -/
theorem postComment_missingParent_witness :
    (postComment [] [] "tid" (some "hi") "cid" 3 "http://x/api/v1/tasks/tid/comments").1.status = 404 ∧
    (postComment [] [] "tid" (some "hi") "cid" 3 "http://x/api/v1/tasks/tid/comments").1 =
      notFoundResponse ∧
    (postComment [] [] "tid" (some "hi") "cid" 3 "http://x/api/v1/tasks/tid/comments").2 = [] :=
  postComment_missingParent [] [] "tid" "hi" "cid" 3 "http://x/api/v1/tasks/tid/comments"
    (by decide) (by decide) (by decide)

/-- A stored task whose `updatedAt` is 5, for the C3 counterexample. -/
def cexTask : Task := ⟨"a", "Buy milk", "todo", "medium", [], 5, 5, ⟨"", ""⟩⟩

def cexStore : Store := [("a", .jsonTask cexTask, none)]

/-- A valid partial update body that also tries to smuggle in `id` and
`createdAt` values. -/
def cexBody : RawBody := ⟨none, some "done", none, none, some "EVIL", some 999, none⟩

/-- The record the PUT at instant 5 produces and persists. -/
def cexMerged : Task := ⟨"a", "Buy milk", "done", "medium", [], 5, 5, ⟨"u", "u/comments"⟩⟩

/-- C3 (counterexample): a valid PUT on an existing task performed at a
clock instant equal to the record's current `updatedAt` (two mutations
within the same millisecond) answers 200 with `updatedAt` unchanged —
`updatedAt` does not strictly increase, contrary to the claim. -/
theorem putTask_updatedAt_not_strict :
    (putTask cexStore "a" cexBody 5 "u").1 = ⟨200, .jsonTask cexMerged⟩ ∧
    cexMerged.updatedAt = cexTask.updatedAt ∧
    ¬ cexTask.updatedAt < cexMerged.updatedAt := by
  refine ⟨by decide, rfl, by decide⟩

/-- C3 (amended): a valid `PUT /api/v1/tasks/:id` on an existing task
merges the provided fields over the stored record: every schema field
absent from the request body keeps its prior value; `id` and
`createdAt` are never changed — even when the body supplies them, since
`z.object` strips unknown keys before the handler runs; `updatedAt` is
set to the request's clock reading, so it strictly increases exactly
when that reading is strictly later than the prior `updatedAt`. -/
theorem putTask_merge_frame (st : Store) (taskId : String) (b : RawBody)
    (now : Nat) (url : String) (t : Task) (p : PartialBody)
    (hv : validatePartialTask b = .ok p)
    (hg : kvGet st taskId now = some (.jsonTask t)) :
    putTask st taskId b now url =
      (⟨200, .jsonTask (mergeTask t p now url)⟩,
        kvPut st taskId (.jsonTask (mergeTask t p now url)) none) ∧
    (mergeTask t p now url).id = t.id ∧
    (mergeTask t p now url).createdAt = t.createdAt ∧
    (mergeTask t p now url).updatedAt = now ∧
    (b.title = none → (mergeTask t p now url).title = t.title) ∧
    (b.status = none → (mergeTask t p now url).status = t.status) ∧
    (b.priority = none → (mergeTask t p now url).priority = t.priority) ∧
    (b.labels = none → (mergeTask t p now url).labels = t.labels) ∧
    (t.updatedAt < now → t.updatedAt < (mergeTask t p now url).updatedAt) := by
  obtain ⟨e1, e2, e3, e4⟩ := validatePartialTask_ok_eq b p hv
  refine ⟨by simp [putTask, hv, hg], rfl, rfl, rfl, ?_, ?_, ?_, ?_, ?_⟩
  · intro hbt; simp [mergeTask, e1, hbt]
  · intro hbs; simp [mergeTask, e2, hbs]
  · intro hbp; simp [mergeTask, e3, hbp]
  · intro hbl; simp [mergeTask, e4, hbl]
  · intro hlt; simpa [mergeTask] using hlt

/-- Witness for the amended C3: a body updating only `status` (and
trying to overwrite `id`/`createdAt`) against a stored task, at a
strictly later clock instant. -/
theorem putTask_merge_frame_witness :
    putTask cexStore "a" cexBody 9 "u" =
      (⟨200, .jsonTask (mergeTask cexTask ⟨none, some "done", none, none⟩ 9 "u")⟩,
        kvPut cexStore "a"
          (.jsonTask (mergeTask cexTask ⟨none, some "done", none, none⟩ 9 "u")) none) ∧
    (mergeTask cexTask ⟨none, some "done", none, none⟩ 9 "u").id = cexTask.id ∧
    (mergeTask cexTask ⟨none, some "done", none, none⟩ 9 "u").createdAt =
      cexTask.createdAt ∧
    (mergeTask cexTask ⟨none, some "done", none, none⟩ 9 "u").updatedAt = 9 ∧
    (cexBody.title = none →
      (mergeTask cexTask ⟨none, some "done", none, none⟩ 9 "u").title = cexTask.title) ∧
    (cexBody.status = none →
      (mergeTask cexTask ⟨none, some "done", none, none⟩ 9 "u").status = cexTask.status) ∧
    (cexBody.priority = none →
      (mergeTask cexTask ⟨none, some "done", none, none⟩ 9 "u").priority =
        cexTask.priority) ∧
    (cexBody.labels = none →
      (mergeTask cexTask ⟨none, some "done", none, none⟩ 9 "u").labels =
        cexTask.labels) ∧
    (cexTask.updatedAt < 9 →
      cexTask.updatedAt <
        (mergeTask cexTask ⟨none, some "done", none, none⟩ 9 "u").updatedAt) :=
  putTask_merge_frame cexStore "a" cexBody 9 "u" cexTask
    ⟨none, some "done", none, none⟩ (by rfl) (by rfl)

theorem keepTask_statusF (s : String) (hs : s ≠ "") (priority : Option String)
    (t : ListedTask) (hk : keepTask (some s) priority t = true) :
    t.statusF = some s := by
  simp [keepTask, truthy, hs] at hk
  exact hk.1

/-- C1: whenever `GET /api/v1/tasks` with a (truthy) `status` query
produces a listing body, every record of its `tasks` array carries that
exact status, and `metadata.total` is the length of the filtered
`tasks` array — the count after in-memory filtering of the fetched
page, not the unfiltered page size. -/
theorem listTasks_statusFilter (st : Store) (now : Nat)
    (pageQ limitQ : Option String) (s : String) (priority : Option String)
    (url path : String) (r : TaskListResponse)
    (hs : s ≠ "")
    (hr : (listTasks st now pageQ limitQ (some s) priority url path).body =
      .jsonTaskList r) :
    (∀ t ∈ r.tasks, t.statusF = some s) ∧ r.total = r.tasks.length := by
  simp only [listTasks] at hr
  cases hd : decodeFetched st now path
      (fetchedKeys st now (jsParseInt (queryDefault pageQ "1"))
        (jsParseInt (queryDefault limitQ "10"))) with
  | none => rw [hd] at hr; simp at hr
  | some decoded =>
      rw [hd] at hr
      simp only [ResBody.jsonTaskList.injEq] at hr
      subst hr
      refine ⟨?_, rfl⟩
      intro t ht
      rw [List.mem_filter] at ht
      exact keepTask_statusF s hs priority t ht.2

/-- A concrete page holding one "done" task and one "todo" task. -/
def c1store : Store :=
  [("a", .jsonTask ⟨"a", "Buy milk", "done", "medium", [], 5, 5, ⟨"", ""⟩⟩, none),
   ("b", .jsonTask ⟨"b", "Other", "todo", "high", ["x"], 3, 4, ⟨"", ""⟩⟩, none)]

/-- The listing response of `GET /api/v1/tasks?status=done` on
`c1store`: one filtered task, `total = 1` (not the page size 2). -/
def c1resp : TaskListResponse :=
  { tasks := [⟨some "a", some "Buy milk", some "done", some "medium", some [],
      some 5, some 5, ⟨"p/a", "p/a/comments"⟩⟩],
    total := 1, page := some 1, limit := some 10,
    linkSelf := "u", linkNext := "u?page=2&limit=10", linkPrev := none }

/-- Witness for C1: a two-task page of which exactly one task has
status "done". -/
theorem listTasks_statusFilter_witness :
    (∀ t ∈ c1resp.tasks, t.statusF = some "done") ∧
    c1resp.total = c1resp.tasks.length :=
  listTasks_statusFilter c1store 0 none none "done" none "u" "p" c1resp
    (by decide) (by decide)

end TasksApp
